import Mathlib

/-!
Verification of the webhook notification channel (src/webhook.py).

The module has two parts: a content formatter (`_get_content`, `_get_subject`,
`_error_template`) that turns a `ReportContent` value into a `WebhookContent`
payload, and a dispatcher (`send`) that resolves the destination URL from the
recipient configuration, serializes an envelope to JSON and issues one HTTP
POST sending it.

Embedding conventions:
* Byte buffers are `List Nat` with each entry a byte value below 256.
* Python optional values are `Option`; Python truthiness of strings and lists
  is made explicit (`py_truthy_str`, `py_truthy_list`).
* The description text is represented by its stream of HTML tokens
  (`HtmlToken`), since the sanitization collaborator `nh3.clean` operates on
  HTML structure; `render_tokens` maps a token stream back to its text.
* External collaborators are modelled at their interface: `nh3.clean` by
  `nh3_clean` (the library's documented default behaviour: an allow-list
  sanitizer, not a tag stripper), `json.dumps` by `json_dumps` (which, as in
  CPython, rejects raw byte values), `json.loads` of the recipient
  configuration by an explicit `Except` input to `send`, and the HTTP layer by
  an explicit `HttpOutcome` input.  `send` returns the list of observable
  actions (POSTs and log records) together with its result.
-/

/-- Opaque header metadata (`HeaderDataType` in the source); its structure is
irrelevant to the channel, which only passes it through to logging. -/
abbrev HeaderDataType : Type := String

/-- One token of an HTML document: character data, an opening tag with its
attribute list (name/value pairs), or a closing tag. -/
inductive HtmlToken where
  | text : String → HtmlToken
  | openTag : String → List (String × String) → HtmlToken
  | closeTag : String → HtmlToken
deriving DecidableEq, Repr

/-- The report content value handed to the channel (fields used by
src/webhook.py: `text`, `description`, `url`, `screenshots`, `csv`, `name`,
`header_data`). -/
structure ReportContent where
  text : Option String
  description : Option (List HtmlToken)
  url : String
  screenshots : Option (List (List Nat))
  csv : Option (List Nat)
  name : String
  header_data : Option HeaderDataType
deriving DecidableEq

/-- Python truthiness of an optional string: `None` and `""` are falsy. -/
def py_truthy_str : Option String → Bool
  | none => false
  | some s => !(s == "")

/-- Python truthiness of an optional list: `None` and `[]` are falsy. -/
def py_truthy_list {α : Type} : Option (List α) → Bool
  | none => false
  | some l => !l.isEmpty

/-- The base64 alphabet (RFC 4648), as used by `base64.b64encode`. -/
def b64alphabet : List Char :=
  "ABCDEFGHIJKLMNOPQRSTUVWXYZabcdefghijklmnopqrstuvwxyz0123456789+/".toList

/-- The base64 digit for a 6-bit value. -/
def b64char (n : Nat) : Char := b64alphabet.getD n 'A'

/-- Standard base64 encoding of a byte list (`base64.b64encode(...)` followed
by `.decode('ascii')` in the source). -/
def b64encode : List Nat → String
  | [] => ""
  | [a] =>
      String.mk [b64char (a / 4 % 64), b64char (a % 4 * 16), '=', '=']
  | [a, b] =>
      String.mk [b64char (a / 4 % 64), b64char (a % 4 * 16 + b / 16),
        b64char (b % 16 * 4), '=']
  | a :: b :: c :: rest =>
      String.mk [b64char (a / 4 % 64), b64char (a % 4 * 16 + b / 16),
        b64char (b % 16 * 4 + c / 64), b64char (c % 64)] ++ b64encode rest

/-- Tags that `nh3.clean` keeps by default (the ammonia allow list). -/
def nh3_allowed_tags : List String :=
  ["a", "abbr", "acronym", "area", "article", "aside", "b", "bdi", "bdo",
   "blockquote", "br", "caption", "center", "cite", "code", "col", "colgroup",
   "data", "dd", "del", "details", "dfn", "div", "dl", "dt", "em",
   "figcaption", "figure", "footer", "h1", "h2", "h3", "h4", "h5", "h6",
   "header", "hgroup", "hr", "i", "img", "ins", "kbd", "li", "map", "mark",
   "nav", "ol", "p", "pre", "q", "rp", "rt", "rtc", "ruby", "s", "samp",
   "small", "span", "strike", "strong", "sub", "summary", "sup", "table",
   "tbody", "td", "th", "thead", "time", "tr", "tt", "u", "ul", "var", "wbr"]

/-- Tags whose entire content `nh3.clean` removes by default. -/
def nh3_clean_content_tags : List String := ["script", "style"]

/-- Attributes `nh3.clean` keeps by default on specific tags (the ammonia
tag-attribute table).  Event-handler attributes such as `onerror` occur
nowhere in it. -/
def nh3_tag_attrs : String → List String
  | "a" => ["href", "hreflang"]
  | "bdo" => ["dir"]
  | "blockquote" => ["cite"]
  | "col" => ["align", "char", "charoff", "span"]
  | "colgroup" => ["align", "char", "charoff", "span"]
  | "del" => ["cite", "datetime"]
  | "hr" => ["align", "size", "width"]
  | "img" => ["align", "alt", "height", "src", "width"]
  | "ins" => ["cite", "datetime"]
  | "ol" => ["start", "type"]
  | "q" => ["cite"]
  | "table" => ["align", "char", "charoff", "summary"]
  | "tbody" => ["align", "char", "charoff"]
  | "td" => ["align", "char", "charoff", "colspan", "headers", "rowspan"]
  | "tfoot" => ["align", "char", "charoff"]
  | "th" => ["align", "char", "charoff", "colspan", "headers", "rowspan",
             "scope"]
  | "thead" => ["align", "char", "charoff"]
  | "time" => ["datetime"]
  | "tr" => ["align", "char", "charoff"]
  | "ul" => ["type"]
  | _ => []

/-- Whether `nh3.clean` keeps an attribute on a tag: the generic attributes
`lang` and `title`, or a tag-specific entry of the table. -/
def nh3_allowed_attr (tag attr : String) : Bool :=
  ["lang", "title"].contains attr || (nh3_tag_attrs tag).contains attr

/-- One pass of the `nh3.clean` sanitizer over a token stream.  The state
records the name of the clean-content element (`script`/`style`) currently
being skipped, if any: inside such an element every token up to the matching
close tag is dropped.  Outside, character data is kept; an allowed tag is kept
with only its allowed attributes; a disallowed tag marker is dropped while its
content continues to be processed. -/
def nh3_clean_aux : Option String → List HtmlToken → List HtmlToken
  | _, [] => []
  | some n, tok :: rest =>
      match tok with
      | .closeTag m =>
          if m == n then nh3_clean_aux none rest else nh3_clean_aux (some n) rest
      | _ => nh3_clean_aux (some n) rest
  | none, tok :: rest =>
      match tok with
      | .text s => .text s :: nh3_clean_aux none rest
      | .openTag m attrs =>
          if nh3_clean_content_tags.contains m then
            nh3_clean_aux (some m) rest
          else if nh3_allowed_tags.contains m then
            .openTag m (attrs.filter (fun a => nh3_allowed_attr m a.1)) ::
              nh3_clean_aux none rest
          else
            nh3_clean_aux none rest
      | .closeTag m =>
          if nh3_allowed_tags.contains m then
            .closeTag m :: nh3_clean_aux none rest
          else
            nh3_clean_aux none rest

/-- `nh3.clean(text)` with the library defaults, on the token representation. -/
def nh3_clean (l : List HtmlToken) : List HtmlToken := nh3_clean_aux none l

/-- Serialize one HTML token back to text. -/
def render_token : HtmlToken → String
  | .text s => s
  | .openTag n attrs =>
      "<" ++ n ++
        String.join (attrs.map (fun a => " " ++ a.1 ++ "=\"" ++ a.2 ++ "\"")) ++
        ">"
  | .closeTag n => "</" ++ n ++ ">"

/-- Serialize a token stream back to text. -/
def render_tokens (l : List HtmlToken) : String :=
  String.join (l.map render_token)

/-- The body of a formatted payload: either the plain templated error string or
the structured object with keys `description` and `url` (the description is
kept in token form; `render_tokens` recovers its text). -/
inductive Body where
  | errorText : String → Body
  | structured : List HtmlToken → String → Body
deriving DecidableEq

/-- The `WebhookContent` dataclass: `body`, and optional `header_data`, `data`
(the single-entry filename-to-bytes mapping, as an association list) and
`images`. -/
structure WebhookContent where
  body : Body
  header_data : Option HeaderDataType := none
  data : Option (List (String × List Nat)) := none
  images : Option (List String) := none
deriving DecidableEq

/-- `_error_template`: the localizable template with the error text and the
content URL substituted (`gettext` substitution is pass-through). -/
def error_template (text url : String) : String :=
  "\n            Your report/alert was unable to be generated because of the following error: "
  ++ text
  ++ "\n            Please check your dashboard/chart for errors.\n            \""
  ++ url
  ++ "\"\n            "

/-- `_get_content`: branch on the truthiness of `content.text`; on the error
path return only the templated body, otherwise base64-encode the screenshots,
sanitize the description (defaulting to empty), build the structured body, the
optional CSV mapping and pass the header metadata through. -/
def get_content (c : ReportContent) : WebhookContent :=
  if py_truthy_str c.text then
    { body := .errorText (error_template (c.text.getD "") c.url) }
  else
    let images : List String :=
      if py_truthy_list c.screenshots then
        (c.screenshots.getD []).map b64encode
      else []
    let description := nh3_clean (c.description.getD [])
    let body : Body := .structured description c.url
    let csv_data : Option (List (String × List Nat)) :=
      if py_truthy_list c.csv then
        some [(c.name ++ ".csv", c.csv.getD [])]
      else none
    { body := body
      images := some images
      data := csv_data
      header_data := c.header_data }

/-- `_get_subject`: the content name, with pass-through localization. -/
def get_subject (c : ReportContent) : String := c.name

/-- JSON values as Python's `json.dumps` sees them: strings, raw byte values
(which `json.dumps` rejects), `None`, lists and (insertion-ordered) dicts.
Numbers and booleans never occur in the webhook payload. -/
inductive JValue where
  | str : String → JValue
  | bytes : List Nat → JValue
  | null : JValue
  | arr : List JValue → JValue
  | obj : List (String × JValue) → JValue

/-- Lower-case hexadecimal digit. -/
def hex_digit (n : Nat) : Char := "0123456789abcdef".toList.getD n '0'

/-- Four-digit hexadecimal rendering of a code unit. -/
def hex4 (n : Nat) : String :=
  String.mk [hex_digit (n / 4096 % 16), hex_digit (n / 256 % 16),
    hex_digit (n / 16 % 16), hex_digit (n % 16)]

/-- Escaping of one character in a JSON string, as `json.dumps` does with its
default `ensure_ascii=True`: the two-character escapes, `\uXXXX` for other
control and non-ASCII characters, and surrogate pairs beyond the basic
multilingual plane. -/
def json_escape_char (c : Char) : String :=
  if c = '"' then "\\\""
  else if c = '\\' then "\\\\"
  else if c = '\n' then "\\n"
  else if c = '\t' then "\\t"
  else if c = '\r' then "\\r"
  else if c = '\x08' then "\\b"
  else if c = '\x0c' then "\\f"
  else if c.toNat < 32 then "\\u" ++ hex4 c.toNat
  else if c.toNat < 127 then String.mk [c]
  else if c.toNat < 65536 then "\\u" ++ hex4 c.toNat
  else
    "\\u" ++ hex4 (55296 + (c.toNat - 65536) / 1024) ++
    "\\u" ++ hex4 (56320 + (c.toNat - 65536) % 1024)

/-- A JSON string literal. -/
def json_str (s : String) : String :=
  "\"" ++ String.join (s.toList.map json_escape_char) ++ "\""

mutual

/-- `json.dumps` with its default separators.  As in CPython, serializing a
raw byte value fails with a `TypeError` whose message is returned. -/
def json_dumps : JValue → Except String String
  | .str s => .ok (json_str s)
  | .bytes _ => .error "Object of type bytes is not JSON serializable"
  | .null => .ok "null"
  | .arr xs => do
      let parts ← json_dumps_list xs
      .ok ("[" ++ String.intercalate ", " parts ++ "]")
  | .obj kvs => do
      let parts ← json_dumps_entries kvs
      .ok ("\x7b" ++ String.intercalate ", " parts ++ "\x7d")

/-- Serialize the elements of a JSON array. -/
def json_dumps_list : List JValue → Except String (List String)
  | [] => .ok []
  | x :: xs => do
      let s ← json_dumps x
      let rest ← json_dumps_list xs
      .ok (s :: rest)

/-- Serialize the key/value entries of a JSON object. -/
def json_dumps_entries : List (String × JValue) → Except String (List String)
  | [] => .ok []
  | (k, v) :: xs => do
      let s ← json_dumps v
      let rest ← json_dumps_entries xs
      .ok ((json_str k ++ ": " ++ s) :: rest)

end

/-- The Python exceptions that can surface from `send`: the channel's own
`NotificationError`, and the native exceptions of its collaborators. -/
inductive PyExc where
  | notificationError : String → PyExc
  | keyError : String → PyExc
  | jsonDecodeError : String → PyExc
  | typeError : String → PyExc
  | httpError : String → PyExc
  | requestException : String → PyExc
deriving DecidableEq

/-- Outcome of the `requests.post` call: a response with a status code, a
transport-level fault carrying the fault description (`str` of the raised
exception), or the upstream `SupersetErrorsException` carrying the messages of
its structured errors in order. -/
inductive HttpOutcome where
  | response : Nat → HttpOutcome
  | transportFault : String → HttpOutcome
  | supersetErrorsFault : List String → HttpOutcome
deriving DecidableEq

/-- The observable actions of one `send` invocation: an HTTP POST with its
destination URL, custom header list, body string and timeout, and an
informational log record with the logged header metadata, destination URL and
status code. -/
inductive SendAction where
  | httpPost : String → List (String × String) → String → Nat → SendAction
  | logInfo : Option HeaderDataType → String → Nat → SendAction
deriving DecidableEq

/-- The message of the `requests.HTTPError` raised by `raise_for_status` for a
4xx/5xx status; the reason phrase of the concrete response is abstracted. -/
def http_error_msg (status : Nat) (url : String) : String :=
  if status < 500 then
    toString status ++ " Client Error for url: " ++ url
  else
    toString status ++ " Server Error for url: " ++ url

/-- The JSON value of the payload `body` field: the error template string, or
the dict with keys `description` and `url`. -/
def body_jvalue : Body → JValue
  | .errorText s => .str s
  | .structured desc url =>
      .obj [("description", .str (render_tokens desc)), ("url", .str url)]

/-- The JSON value of the payload `data` field: `None` or the filename-to-raw
bytes dict. -/
def opt_data_jvalue : Option (List (String × List Nat)) → JValue
  | none => .null
  | some entries => .obj (entries.map (fun e => (e.1, JValue.bytes e.2)))

/-- The JSON value of the payload `images` field: `None` or the list of base64
strings. -/
def opt_images_jvalue : Option (List String) → JValue
  | none => .null
  | some imgs => .arr (imgs.map JValue.str)

/-- The envelope built by `send`: subject, and content with body, data and
images.  The header metadata is not part of it. -/
def payload_jvalue (subject : String) (wc : WebhookContent) : JValue :=
  .obj [("subject", .str subject),
        ("content", .obj [("body", body_jvalue wc.body),
                          ("data", opt_data_jvalue wc.data),
                          ("images", opt_images_jvalue wc.images)])]

/-- The serialized wire payload `send` would build for a report content:
`json.dumps` of the envelope over `_get_subject` and `_get_content`. -/
def wire_payload (c : ReportContent) : Except String String :=
  json_dumps (payload_jvalue (get_subject c) (get_content c))

/-- `send`.  `to_result` is the outcome of
`json.loads(recipient_config_json)["target"]` (an `Except` because
`json.loads` and the key lookup are library calls outside this module): a
malformed configuration yields `jsonDecodeError`, a missing `target` key
yields `keyError`.  That lookup happens before the `try` block, so its
exception propagates unwrapped and nothing further runs.  Inside the `try`,
`json.dumps` runs first (it is an argument of `requests.post`); a `TypeError`
from it is caught by the generic handler before any POST.  Otherwise the POST
is issued with empty headers and timeout 30 and the `http` outcome decides the
rest: `SupersetErrorsException` is caught by its dedicated handler
(semicolon-joined messages), any other exception — transport faults and the
`HTTPError` from `raise_for_status` on a 4xx/5xx status — is caught by the
generic handler and re-raised as `NotificationError` of its `str`.  On
success the informational record is logged. -/
def send (c : ReportContent) (to_result : Except PyExc String)
    (http : HttpOutcome) : List SendAction × Except PyExc Unit :=
  let subject := get_subject c
  let content := get_content c
  match to_result with
  | .error e => ([], .error e)
  | .ok dest =>
    match json_dumps (payload_jvalue subject content) with
    | .error msg => ([], .error (.notificationError msg))
    | .ok body =>
      let post := SendAction.httpPost dest [] body 30
      match http with
      | .transportFault msg => ([post], .error (.notificationError msg))
      | .supersetErrorsFault errs =>
          ([post], .error (.notificationError (String.intercalate ";" errs)))
      | .response status =>
          if 400 ≤ status && status < 600 then
            ([post], .error (.notificationError (http_error_msg status dest)))
          else
            ([post, .logInfo content.header_data dest status], .ok ())

/-- Whether an action is an HTTP POST. -/
def is_post : SendAction → Bool
  | .httpPost _ _ _ _ => true
  | .logInfo _ _ _ => false

/-- Whether an exception is the channel's `NotificationError`. -/
def is_notification_error : PyExc → Bool
  | .notificationError _ => true
  | _ => false

/-- Whether an HTML token is character data. -/
def is_text_tok : HtmlToken → Bool
  | .text _ => true
  | _ => false

/-- Whether a token opens a clean-content (`script`/`style`) element. -/
def is_cc_open : HtmlToken → Bool
  | .openTag n _ => nh3_clean_content_tags.contains n
  | _ => false

/-- Whether a token stream contains an opening `script` tag. -/
def has_script_tag (l : List HtmlToken) : Bool :=
  l.any fun t =>
    match t with
    | .openTag n _ => n == "script"
    | _ => false

/-- Whether a token stream contains a tag with an `onerror` attribute. -/
def has_onerror_attr (l : List HtmlToken) : Bool :=
  l.any fun t =>
    match t with
    | .openTag _ attrs => attrs.any fun a => a.1 == "onerror"
    | _ => false

/-- Whether the wire payload of a report content serializes (it does exactly
when no raw bytes occur in it, i.e. when the CSV attachment is absent). -/
def serialization_ok (c : ReportContent) : Bool :=
  match wire_payload c with
  | .ok _ => true
  | .error _ => false

/-- An allowed tag name is not `script`. -/
theorem allowed_tag_not_script (m : String) (h : nh3_allowed_tags.contains m = true) :
    (m == "script") = false := by
  cases hm : m == "script" with
  | false => rfl
  | true =>
      have hs : m = "script" := by simpa using hm
      subst hs
      exact absurd h (by decide)

/-- No tag admits the `onerror` attribute. -/
theorem nh3_allowed_attr_onerror (tag : String) :
    nh3_allowed_attr tag "onerror" = false := by
  have h2 : (nh3_tag_attrs tag).contains "onerror" = false := by
    unfold nh3_tag_attrs
    split <;> decide
  unfold nh3_allowed_attr
  rw [h2]
  decide

/-- Attribute filtering leaves no `onerror` attribute behind. -/
theorem filter_attrs_no_onerror (m : String) (attrs : List (String × String)) :
    ((attrs.filter fun a => nh3_allowed_attr m a.1).any fun a =>
      a.1 == "onerror") = false := by
  rw [List.any_eq_false]
  intro a ha
  rw [List.mem_filter] at ha
  intro hbe
  have h1 : a.1 = "onerror" := by simpa using hbe
  have h2 := ha.2
  rw [h1] at h2
  rw [nh3_allowed_attr_onerror m] at h2
  exact Bool.noConfusion h2

/-- The sanitizer never emits an opening `script` tag, from any state. -/
theorem nh3_clean_aux_no_script (l : List HtmlToken) :
    ∀ st, has_script_tag (nh3_clean_aux st l) = false := by
  induction l with
  | nil => intro st; cases st <;> rfl
  | cons tok rest ih =>
      intro st
      cases st with
      | some n =>
          cases tok with
          | text s => simpa [nh3_clean_aux] using ih (some n)
          | openTag m attrs => simpa [nh3_clean_aux] using ih (some n)
          | closeTag m =>
              simp only [nh3_clean_aux]
              split
              · exact ih none
              · exact ih (some n)
      | none =>
          cases tok with
          | text s =>
              simpa [nh3_clean_aux, has_script_tag] using ih none
          | openTag m attrs =>
              simp only [nh3_clean_aux]
              split
              · exact ih (some m)
              · split
                · next hallow =>
                    have hns := allowed_tag_not_script m (by simpa using hallow)
                    simpa [has_script_tag, hns] using ih none
                · exact ih none
          | closeTag m =>
              simp only [nh3_clean_aux]
              split
              · simpa [has_script_tag] using ih none
              · exact ih none

/-- The sanitizer never emits a tag carrying an `onerror` attribute, from any
state. -/
theorem nh3_clean_aux_no_onerror (l : List HtmlToken) :
    ∀ st, has_onerror_attr (nh3_clean_aux st l) = false := by
  induction l with
  | nil => intro st; cases st <;> rfl
  | cons tok rest ih =>
      intro st
      cases st with
      | some n =>
          cases tok with
          | text s => simpa [nh3_clean_aux] using ih (some n)
          | openTag m attrs => simpa [nh3_clean_aux] using ih (some n)
          | closeTag m =>
              simp only [nh3_clean_aux]
              split
              · exact ih none
              · exact ih (some n)
      | none =>
          cases tok with
          | text s =>
              simpa [nh3_clean_aux, has_onerror_attr] using ih none
          | openTag m attrs =>
              simp only [nh3_clean_aux]
              split
              · exact ih (some m)
              · split
                · simp only [has_onerror_attr, List.any_cons]
                  rw [filter_attrs_no_onerror]
                  simpa [has_onerror_attr] using ih none
                · exact ih none
          | closeTag m =>
              simp only [nh3_clean_aux]
              split
              · simpa [has_onerror_attr] using ih none
              · exact ih none

/-- The character data kept by the sanitizer is a subsequence of the input's
character data, from any state. -/
theorem nh3_clean_aux_texts_sublist (l : List HtmlToken) :
    ∀ st, ((nh3_clean_aux st l).filter is_text_tok).Sublist
      (l.filter is_text_tok) := by
  induction l with
  | nil => intro st; cases st <;> simp [nh3_clean_aux]
  | cons tok rest ih =>
      intro st
      cases st with
      | some n =>
          cases tok with
          | text s =>
              simp only [nh3_clean_aux, List.filter_cons, is_text_tok]
              exact (ih (some n)).cons _
          | openTag m attrs =>
              simpa [nh3_clean_aux, List.filter_cons, is_text_tok]
                using ih (some n)
          | closeTag m =>
              simp only [nh3_clean_aux, List.filter_cons, is_text_tok]
              split
              · simpa using ih none
              · simpa using ih (some n)
      | none =>
          cases tok with
          | text s =>
              simp only [nh3_clean_aux, List.filter_cons, is_text_tok]
              exact (ih none).cons₂ _
          | openTag m attrs =>
              simp only [nh3_clean_aux, List.filter_cons, is_text_tok]
              split
              · simpa using ih (some m)
              · split
                · simpa [List.filter_cons, is_text_tok] using ih none
                · simpa using ih none
          | closeTag m =>
              simp only [nh3_clean_aux, List.filter_cons, is_text_tok]
              split
              · simpa [List.filter_cons, is_text_tok] using ih none
              · simpa using ih none

/-- When the input has no `script`/`style` opening tag, the sanitizer keeps
its character data exactly. -/
theorem nh3_clean_aux_texts_preserved (l : List HtmlToken)
    (h : l.all (fun t => !is_cc_open t) = true) :
    (nh3_clean_aux none l).filter is_text_tok = l.filter is_text_tok := by
  induction l with
  | nil => rfl
  | cons tok rest ih =>
      rw [List.all_cons] at h
      have htok := (Bool.and_eq_true _ _).mp h |>.1
      have hrest := (Bool.and_eq_true _ _).mp h |>.2
      cases tok with
      | text s =>
          simp only [nh3_clean_aux, List.filter_cons, is_text_tok]
          simp [ih hrest]
      | openTag m attrs =>
          have hcc : nh3_clean_content_tags.contains m = false := by
            simpa [is_cc_open] using htok
          simp only [nh3_clean_aux, hcc]
          simp only [Bool.false_eq_true, if_false]
          split
          · simp only [List.filter_cons, is_text_tok]
            simpa using ih hrest
          · simp only [List.filter_cons, is_text_tok]
            simpa using ih hrest
      | closeTag m =>
          simp only [nh3_clean_aux]
          split
          · simp only [List.filter_cons, is_text_tok]
            simpa using ih hrest
          · simp only [List.filter_cons, is_text_tok]
            simpa using ih hrest

/-- Claim C2, counterexample: `nh3.clean` with the source's default arguments
is an allow-list sanitizer, not a tag stripper.  For the description
`<b>hi</b>` the sanitized output still contains the `b` markup, so the
formatter does not retain only plain text. -/
theorem C2_counterexample :
    (get_content ⟨none, some [HtmlToken.openTag "b" [], HtmlToken.text "hi",
      HtmlToken.closeTag "b"], "http://u", none, none, "N", none⟩).body =
      Body.structured [HtmlToken.openTag "b" [], HtmlToken.text "hi",
        HtmlToken.closeTag "b"] "http://u" ∧
    is_text_tok (HtmlToken.openTag "b" []) = false :=
  ⟨rfl, rfl⟩

/-- Claim C2 (amended): on the normal path the formatter sanitizes the
description (empty when absent) with `nh3.clean`; the sanitized output
contains no `script` element and no `onerror` attribute, its plain-text
content is a subsequence of the input's and is preserved exactly when no
`script`/`style` element occurs — but benign allowed markup may be retained,
so the output is not plain text only. -/
theorem C2_theorem (c : ReportContent) (h : py_truthy_str c.text = false) :
    (get_content c).body =
      Body.structured (nh3_clean (c.description.getD [])) c.url ∧
    has_script_tag (nh3_clean (c.description.getD [])) = false ∧
    has_onerror_attr (nh3_clean (c.description.getD [])) = false ∧
    ((nh3_clean (c.description.getD [])).filter is_text_tok).Sublist
      ((c.description.getD []).filter is_text_tok) ∧
    ((c.description.getD []).all (fun t => !is_cc_open t) = true →
      (nh3_clean (c.description.getD [])).filter is_text_tok =
        (c.description.getD []).filter is_text_tok) ∧
    (c.description = none → (get_content c).body = Body.structured [] c.url) := by
  refine ⟨?_, nh3_clean_aux_no_script _ none, nh3_clean_aux_no_onerror _ none,
    nh3_clean_aux_texts_sublist _ none, nh3_clean_aux_texts_preserved _, ?_⟩
  · simp [get_content, h]
  · intro hd
    simp [get_content, h, hd, nh3_clean, nh3_clean_aux]

/-- Claim C2, witness: a description with a script payload between two text
runs sanitizes to exactly the two text runs. -/
theorem C2_witness :
    py_truthy_str (ReportContent.mk none (some [HtmlToken.text "hello ",
      HtmlToken.openTag "script" [], HtmlToken.text "alert(1)",
      HtmlToken.closeTag "script", HtmlToken.text " world"]) "http://u" none
      none "N" none).text = false ∧
    (get_content (ReportContent.mk none (some [HtmlToken.text "hello ",
      HtmlToken.openTag "script" [], HtmlToken.text "alert(1)",
      HtmlToken.closeTag "script", HtmlToken.text " world"]) "http://u" none
      none "N" none)).body =
      Body.structured [HtmlToken.text "hello ", HtmlToken.text " world"]
        "http://u" := by
  refine ⟨rfl, ?_⟩
  exact (C2_theorem (ReportContent.mk none (some [HtmlToken.text "hello ",
    HtmlToken.openTag "script" [], HtmlToken.text "alert(1)",
    HtmlToken.closeTag "script", HtmlToken.text " world"]) "http://u" none
    none "N" none) rfl).1

/-- Claim C3: when the error text is non-empty the formatted payload is the
error template with the text and the URL substituted, and `images`, `data`
and `header_data` are all absent, regardless of the other fields. -/
theorem C3_theorem (c : ReportContent) (h : py_truthy_str c.text = true) :
    get_content c =
      { body := Body.errorText (error_template (c.text.getD "") c.url),
        header_data := none, data := none, images := none } ∧
    ∃ pre mid tail, error_template (c.text.getD "") c.url =
      pre ++ (c.text.getD "") ++ mid ++ c.url ++ tail := by
  constructor
  · simp [get_content, h]
  · exact ⟨"\n            Your report/alert was unable to be generated because of the following error: ",
      "\n            Please check your dashboard/chart for errors.\n            \"",
      "\"\n            ", rfl⟩

/-- Claim C3, witness: an error-text content with screenshots, CSV and header
metadata populated still formats to the template-only payload. -/
theorem C3_witness :
    py_truthy_str (some "boom") = true ∧
    get_content ⟨some "boom", some [HtmlToken.text "d"], "http://u",
        some [[97]], some [1, 2], "N", some "H"⟩ =
      { body := Body.errorText (error_template "boom" "http://u"),
        header_data := none, data := none, images := none } := by
  refine ⟨rfl, ?_⟩
  exact (C3_theorem ⟨some "boom", some [HtmlToken.text "d"], "http://u",
    some [[97]], some [1, 2], "N", some "H"⟩ rfl).1

/-- Claim C4: on the normal path the images are exactly the base64 encodings
of the screenshots, in order and of the same length, and empty when the
screenshots are absent or empty. -/
theorem C4_theorem (c : ReportContent) (h : py_truthy_str c.text = false) :
    (get_content c).images = some ((c.screenshots.getD []).map b64encode) ∧
    ((c.screenshots.getD []).map b64encode).length =
      (c.screenshots.getD []).length ∧
    (∀ (i : Fin (c.screenshots.getD []).length),
      ((c.screenshots.getD []).map b64encode).get ⟨i.1, by simp⟩ =
        b64encode ((c.screenshots.getD []).get i)) ∧
    ((c.screenshots = none ∨ c.screenshots = some []) →
      (get_content c).images = some []) := by
  have himg : (get_content c).images =
      some ((c.screenshots.getD []).map b64encode) := by
    cases hs : c.screenshots with
    | none => simp [get_content, h, hs, py_truthy_list]
    | some l =>
        cases l with
        | nil => simp [get_content, h, hs, py_truthy_list]
        | cons x xs => simp [get_content, h, hs, py_truthy_list]
  refine ⟨himg, List.length_map _ _, ?_, ?_⟩
  · intro i
    simp [List.get_eq_getElem, List.getElem_map]
  · intro hcase
    rcases hcase with hc | hc <;> rw [himg, hc] <;> rfl

/-- Claim C4, witness: two screenshots encode to their base64 strings in
order. -/
theorem C4_witness :
    py_truthy_str (none : Option String) = false ∧
    (get_content ⟨none, none, "http://u", some [[97], [98, 99]], none, "N",
      none⟩).images = some ["YQ==", "YmM="] := by
  refine ⟨rfl, ?_⟩
  exact ((C4_theorem ⟨none, none, "http://u", some [[97], [98, 99]], none,
    "N", none⟩ rfl).1)

/-- Claim C7, counterexample: an empty CSV attachment is present but falsy in
Python, so the formatter omits the `data` mapping although `content.csv` is
not absent. -/
theorem C7_counterexample :
    (⟨none, none, "http://u", none, some [], "Q1 Sales", none⟩ :
      ReportContent).csv = some [] ∧
    (get_content ⟨none, none, "http://u", none, some [], "Q1 Sales",
      none⟩).data = none :=
  ⟨rfl, rfl⟩

/-- Claim C7 (amended): on the normal path, `data` is the single-entry mapping
from `name` followed by `.csv` to the CSV bytes when the CSV is present and
non-empty, and absent when the CSV is absent or empty. -/
theorem C7_theorem (c : ReportContent) (h : py_truthy_str c.text = false) :
    (py_truthy_list c.csv = true →
      (get_content c).data = some [(c.name ++ ".csv", c.csv.getD [])]) ∧
    (py_truthy_list c.csv = false → (get_content c).data = none) := by
  constructor <;> intro hcsv <;> simp [get_content, h, hcsv]

/-- Claim C7, witness: CSV bytes with name `Q1 Sales` map under the filename
`Q1 Sales.csv`. -/
theorem C7_witness :
    py_truthy_str (none : Option String) = false ∧
    py_truthy_list (some [1, 2] : Option (List Nat)) = true ∧
    (get_content ⟨none, none, "http://u", none, some [1, 2], "Q1 Sales",
      none⟩).data = some [("Q1 Sales.csv", [1, 2])] := by
  refine ⟨rfl, rfl, ?_⟩
  exact (C7_theorem ⟨none, none, "http://u", none, some [1, 2], "Q1 Sales",
    none⟩ rfl).1 rfl

/-- Claim C6: when destination resolution fails (malformed recipient JSON or
missing `target` key, i.e. `_get_to` raises), `send` raises that error with an
empty action trace — in particular no HTTP POST is ever issued. -/
theorem C6_theorem (c : ReportContent) (e : PyExc) (http : HttpOutcome) :
    send c (Except.error e) http = ([], Except.error e) ∧
    (send c (Except.error e) http).1.filter is_post = [] :=
  ⟨rfl, rfl⟩

/-- Claim C1, counterexample: destination resolution happens before the `try`
block, so for recipient configuration without a `target` key (`_get_to`
raises `KeyError`) the error escaping `send` is the native `KeyError`, not a
`NotificationError`. -/
theorem C1_counterexample :
    (send ⟨some "boom", none, "http://u", none, none, "N", none⟩
      (Except.error (PyExc.keyError "target")) (HttpOutcome.response 200)).2 =
      Except.error (PyExc.keyError "target") ∧
    is_notification_error (PyExc.keyError "target") = false :=
  ⟨rfl, rfl⟩

/-- Claim C1 (amended): once the destination has been resolved, every failure
of `send` — serialization `TypeError`, transport fault, aggregated-errors
fault, 4xx/5xx response — is raised as a `NotificationError`; only
destination-resolution failures escape in their native form. -/
theorem C1_theorem (c : ReportContent) (dest : String) (http : HttpOutcome)
    (e : PyExc) (h : (send c (Except.ok dest) http).2 = Except.error e) :
    is_notification_error e = true := by
  cases hj : json_dumps (payload_jvalue (get_subject c) (get_content c)) with
  | error msg =>
      simp [send, hj] at h
      rw [← h]
      rfl
  | ok body =>
      cases http with
      | transportFault msg =>
          simp [send, hj] at h
          rw [← h]
          rfl
      | supersetErrorsFault errs =>
          simp [send, hj] at h
          rw [← h]
          rfl
      | response status =>
          by_cases hs : (400 ≤ status && status < 600) = true
          · simp [send, hj, hs] at h
            rw [← h]
            rfl
          · simp [send, hj, hs] at h

/-- Claim C1, witness: a transport fault surfaces as a `NotificationError`
carrying the fault description. -/
theorem C1_witness :
    (send ⟨some "boom", none, "http://u", none, none, "N", none⟩
      (Except.ok "http://hook")
      (HttpOutcome.transportFault "connection refused")).2 =
      Except.error (PyExc.notificationError "connection refused") ∧
    is_notification_error (PyExc.notificationError "connection refused") =
      true := by
  refine ⟨rfl, ?_⟩
  exact C1_theorem ⟨some "boom", none, "http://u", none, none, "N", none⟩
    "http://hook" (HttpOutcome.transportFault "connection refused")
    (PyExc.notificationError "connection refused") rfl

/-- Claim C5: when the POST raises the upstream aggregated-errors fault,
`send` raises a `NotificationError` whose message is the semicolon-joined
concatenation of the contained error messages, in order. -/
theorem C5_theorem (c : ReportContent) (dest : String) (errs : List String)
    (h : serialization_ok c = true) :
    (send c (Except.ok dest) (HttpOutcome.supersetErrorsFault errs)).2 =
      Except.error (PyExc.notificationError (String.intercalate ";" errs)) := by
  unfold serialization_ok wire_payload at h
  cases hj : json_dumps (payload_jvalue (get_subject c) (get_content c)) with
  | error msg =>
      rw [hj] at h
      exact absurd h (by simp)
  | ok body => simp [send, hj]

/-- Claim C5, witness: the aggregated errors `A failed` and `B failed` yield
the message `A failed;B failed`. -/
theorem C5_witness :
    serialization_ok ⟨some "boom", none, "http://u", none, none, "N", none⟩ =
      true ∧
    (send ⟨some "boom", none, "http://u", none, none, "N", none⟩
      (Except.ok "http://hook")
      (HttpOutcome.supersetErrorsFault ["A failed", "B failed"])).2 =
      Except.error (PyExc.notificationError "A failed;B failed") := by
  refine ⟨rfl, ?_⟩
  exact C5_theorem ⟨some "boom", none, "http://u", none, none, "N", none⟩
    "http://hook" ["A failed", "B failed"] rfl

/-- Claim C10: on the error-text path the formatter leaves `header_data` at
its `None` default instead of passing `content.header_data` through, so no
informational log record of such a delivery carries header metadata. -/
theorem C10_theorem (c : ReportContent) (tor : Except PyExc String)
    (http : HttpOutcome) (h : py_truthy_str c.text = true) :
    (get_content c).header_data = none ∧
    (∀ hd url st, SendAction.logInfo hd url st ∈ (send c tor http).1 →
      hd = none) := by
  have hc : (get_content c).header_data = none := by simp [get_content, h]
  refine ⟨hc, ?_⟩
  intro hd url st hmem
  cases tor with
  | error e => simp [send] at hmem
  | ok dest =>
      cases hj : json_dumps (payload_jvalue (get_subject c) (get_content c)) with
      | error msg => simp [send, hj] at hmem
      | ok body =>
          cases http with
          | transportFault msg => simp [send, hj] at hmem
          | supersetErrorsFault errs => simp [send, hj] at hmem
          | response status =>
              by_cases hs : (400 ≤ status && status < 600) = true
              · simp [send, hj, hs] at hmem
              · simp [send, hj, hs] at hmem
                rw [hc] at hmem
                exact hmem.1

/-- Claim C10, witness: an error-text delivery with header metadata on the
input never logs that metadata. -/
theorem C10_witness :
    py_truthy_str (some "boom") = true ∧
    SendAction.logInfo (some "H") "http://hook" 200 ∉
      (send ⟨some "boom", none, "http://u", none, none, "N", some "H"⟩
        (Except.ok "http://hook") (HttpOutcome.response 200)).1 := by
  refine ⟨rfl, fun hmem => ?_⟩
  have hnone := (C10_theorem
    ⟨some "boom", none, "http://u", none, none, "N", some "H"⟩
    (Except.ok "http://hook") (HttpOutcome.response 200) rfl).2
    (some "H") "http://hook" 200 hmem
  exact Option.noConfusion hnone

/-- The envelope built by `send` does not depend on the header metadata of the
report content. -/
theorem payload_header_irrel (c : ReportContent) (hd : Option HeaderDataType) :
    payload_jvalue (get_subject { c with header_data := hd })
      (get_content { c with header_data := hd }) =
    payload_jvalue (get_subject c) (get_content c) := by
  cases hpy : py_truthy_str c.text <;>
    simp [get_subject, get_content, payload_jvalue, hpy]

/-- Claim C8: two report contents differing only in their header metadata
produce the same serialized wire payload, and `send` issues the same POST
actions for them — header metadata is never transmitted. -/
theorem C8_theorem (c : ReportContent) (hd1 hd2 : Option HeaderDataType)
    (tor : Except PyExc String) (http : HttpOutcome) :
    wire_payload { c with header_data := hd1 } =
      wire_payload { c with header_data := hd2 } ∧
    (send { c with header_data := hd1 } tor http).1.filter is_post =
      (send { c with header_data := hd2 } tor http).1.filter is_post := by
  have hw : ∀ hd, wire_payload { c with header_data := hd } =
      json_dumps (payload_jvalue (get_subject c) (get_content c)) := by
    intro hd
    unfold wire_payload
    rw [payload_header_irrel]
  constructor
  · rw [hw hd1, hw hd2]
  · cases tor with
    | error e => rfl
    | ok dest =>
        have h1 := payload_header_irrel c hd1
        have h2 := payload_header_irrel c hd2
        simp only [send, h1, h2]
        cases json_dumps (payload_jvalue (get_subject c) (get_content c)) with
        | error msg => rfl
        | ok body =>
            cases http with
            | transportFault msg => rfl
            | supersetErrorsFault errs => rfl
            | response status =>
                by_cases hs : (400 ≤ status && status < 600) = true <;>
                  simp [hs, is_post]

/-- Claim C9, counterexample: when CSV bytes are present the payload contains
raw bytes, `json.dumps` raises `TypeError` inside the `try` block, and `send`
fails with a `NotificationError` without issuing any POST — so not every
delivery serializes the envelope and issues a single POST. -/
theorem C9_counterexample :
    (send ⟨none, none, "http://u", none, some [81], "Q1 Sales", none⟩
      (Except.ok "http://hook") (HttpOutcome.response 200)).1 = [] ∧
    (send ⟨none, none, "http://u", none, some [81], "Q1 Sales", none⟩
      (Except.ok "http://hook") (HttpOutcome.response 200)).2 =
      Except.error (PyExc.notificationError
        "Object of type bytes is not JSON serializable") :=
  ⟨rfl, rfl⟩

/-- Claim C9 (amended): whenever the envelope of subject, body, data and
images serializes (in particular whenever the CSV attachment is absent or
empty), `send` issues exactly one HTTP POST, to the resolved destination,
with the serialized envelope as body, empty custom headers and timeout 30;
when serialization fails (CSV bytes present), no POST is issued and `send`
raises a `NotificationError` with the `TypeError` message. -/
theorem C9_theorem (c : ReportContent) (dest : String) (http : HttpOutcome) :
    (∀ body, wire_payload c = Except.ok body →
      (send c (Except.ok dest) http).1.filter is_post =
        [SendAction.httpPost dest [] body 30]) ∧
    (∀ msg, wire_payload c = Except.error msg →
      (send c (Except.ok dest) http).1 = [] ∧
      (send c (Except.ok dest) http).2 =
        Except.error (PyExc.notificationError msg)) := by
  constructor
  · intro body h
    unfold wire_payload at h
    simp only [send, h]
    cases http with
    | transportFault msg => simp [is_post]
    | supersetErrorsFault errs => simp [is_post]
    | response status =>
        by_cases hs : (400 ≤ status && status < 600) = true <;>
          simp [hs, is_post]
  · intro msg h
    unfold wire_payload at h
    simp [send, h]

/-- Claim C9, witness: a normal delivery without CSV serializes the envelope
and issues the single POST with it, empty headers and timeout 30. -/
theorem C9_witness :
    wire_payload ⟨none, some [HtmlToken.text "desc"], "http://u", some [[97]],
      none, "N", none⟩ =
      Except.ok "\x7b\"subject\": \"N\", \"content\": \x7b\"body\": \x7b\"description\": \"desc\", \"url\": \"http://u\"\x7d, \"data\": null, \"images\": [\"YQ==\"]\x7d\x7d" ∧
    (send ⟨none, some [HtmlToken.text "desc"], "http://u", some [[97]], none,
      "N", none⟩ (Except.ok "http://hook") (HttpOutcome.response 200)).1.filter
      is_post =
      [SendAction.httpPost "http://hook" []
        "\x7b\"subject\": \"N\", \"content\": \x7b\"body\": \x7b\"description\": \"desc\", \"url\": \"http://u\"\x7d, \"data\": null, \"images\": [\"YQ==\"]\x7d\x7d"
        30] := by
  refine ⟨rfl, ?_⟩
  exact (C9_theorem ⟨none, some [HtmlToken.text "desc"], "http://u",
    some [[97]], none, "N", none⟩ "http://hook" (HttpOutcome.response 200)).1
    _ rfl
